import Mathlib

/-!
Shallow embedding of the polymorphic-cipher IoT pair (`iot_client.py`,
`iot_server.py`).

Modelling conventions:
* Python's unbounded non-negative integers are modelled as `Nat`; the
  source applies an explicit 64-bit mask (`0xFFFFFFFFFFFFFFFF`) only
  where it does so itself.
* Plaintext strings are modelled as lists of byte values; UTF-8
  encoding/decoding is the identity on the ASCII byte lists the claims
  quantify over.
* The Python dict `self.clientes` is modelled as a total function
  `Nat → Option DatosCliente`; `del` sets an entry to `none` and the
  membership test `in` is `≠ none`.
* File writes and console output carry no protocol state and are
  omitted; the values the source writes to files are the values the
  modelled functions return.
* An uncaught Python exception is modelled by a dedicated result
  constructor (`RMResultado.indexError`), distinct from the
  print-and-return error outcomes of the source.
-/

/-- Python `int.from_bytes(l, 'big')` on a list of byte values. -/
def bytesANum (l : List Nat) : Nat :=
  l.foldl (fun acc b => acc * 256 + b) 0

/-- Python `x.to_bytes(n, 'big')`: the `n` big-endian base-256 digits of `x`. -/
def numABytes : Nat → Nat → List Nat
  | 0, _ => []
  | n + 1, x => numABytes n (x / 256) ++ [x % 256]

/-- Python `str.strip` with the NUL character: remove zero bytes from both
ends of the list. -/
def stripCeros (l : List Nat) : List Nat :=
  ((l.dropWhile (fun b => b == 0)).reverse.dropWhile (fun b => b == 0)).reverse

namespace TipoMensaje

/-- `TipoMensaje.FCM.value` in both source files. -/
def FCM : Nat := 0

/-- `TipoMensaje.RM.value` in both source files. -/
def RM : Nat := 1

/-- `TipoMensaje.KUM.value` in both source files. -/
def KUM : Nat := 2

/-- `TipoMensaje.LCM.value` in both source files. -/
def LCM : Nat := 3

end TipoMensaje

/-- State of `ClienteIoT` (`iot_client.py`): identity, key table, current
key index and the parameters P, Q, S. -/
structure ClienteIoT where
  id : Nat
  llaves : List Nat
  llave_actual : Nat
  p : Nat
  q : Nat
  s : Nat
deriving DecidableEq

namespace ClienteIoT

/-- `ClienteIoT.funcion_mezcla` (client, lines 49-56):
`(x ^ y) + ((x & 0xFFFF) | (y << 16))` over unbounded integers. -/
def funcion_mezcla (x y : Nat) : Nat :=
  (x ^^^ y) + ((x &&& 0xFFFF) ||| (y <<< 16))

/-- `ClienteIoT.funcion_generacion` (client, lines 58-65): 32-bit rotation
of `x` inside a 64-bit word, masked to 64 bits, then XOR with `y`. -/
def funcion_generacion (x y : Nat) : Nat :=
  (((x >>> 32) ||| (x <<< 32)) &&& 0xFFFFFFFFFFFFFFFF) ^^^ y

/-- `ClienteIoT.funcion_mutacion` (client, lines 67-74):
`(x + y) ^ ((x << 8) | (y >> 8))` over unbounded integers. -/
def funcion_mutacion (x y : Nat) : Nat :=
  (x + y) ^^^ ((x <<< 8) ||| (y >>> 8))

/-- The `for i in range(4)` loop body of `ClienteIoT.generar_llaves`
(client, lines 88-97), with the remaining iteration count explicit. -/
def generar_llaves_aux (p q : Nat) : Nat → Nat → List Nat
  | _, 0 => []
  | s, n + 1 =>
    funcion_generacion (funcion_mezcla p s) q ::
      generar_llaves_aux p q (funcion_mutacion s q) n

/-- `ClienteIoT.generar_llaves` (client, lines 77-103): rebuild
`self.llaves` from `self.p`, `self.q`, `self.s`; no other field is
touched. -/
def generar_llaves (st : ClienteIoT) : ClienteIoT :=
  { st with llaves := generar_llaves_aux st.p st.q st.s 4 }

/-- `ClienteIoT.crear_fcm` (client, lines 106-144): draw fresh `p`, `q`,
`s` (the random draws are the explicit arguments here) and regenerate the
key table.  The file writes carry no state. -/
def crear_fcm (st : ClienteIoT) (p q s : Nat) : ClienteIoT :=
  generar_llaves { st with p := p, q := q, s := s }

/-- `ClienteIoT.crear_kum` (client, lines 208-238): identical state effect
to `crear_fcm`, only the emitted frame differs. -/
def crear_kum (st : ClienteIoT) (p q s : Nat) : ClienteIoT :=
  generar_llaves { st with p := p, q := q, s := s }

/-- `ClienteIoT.cifrar_mensaje` (client, lines 146-160): pad/truncate the
byte string to 8 bytes, read it big-endian, XOR the key, rotate right by
4 bits in a 64-bit word. -/
def cifrar_mensaje (mensaje : List Nat) (llave : Nat) : Nat :=
  let datos := (mensaje ++ List.replicate (8 - mensaje.length) 0).take 8
  let num := bytesANum datos
  let num2 := num ^^^ llave
  ((num2 >>> 4) ||| (num2 <<< 60)) &&& 0xFFFFFFFFFFFFFFFF

/-- The header-byte expression `(self.id << 2) | tipo.value` used by
`crear_fcm`/`crear_rm`/`crear_kum`/`crear_lcm` (client, lines 122, 176,
220, 244). -/
def componer_cabecera (i tipo : Nat) : Nat :=
  (i <<< 2) ||| tipo

end ClienteIoT

/-- One entry of the server's `self.clientes` dict (server, line 19):
`{'p': val, 'q': val, 's': val, 'llaves': [k1, k2, k3, k4]}`. -/
structure DatosCliente where
  p : Nat
  q : Nat
  s : Nat
  llaves : List Nat
deriving DecidableEq

/-- State of `ServidorIoT` (`iot_server.py`): the session table. -/
structure ServidorIoT where
  clientes : Nat → Option DatosCliente

namespace ServidorIoT

/-- `ServidorIoT.funcion_mezcla` (server, lines 23-25), transcribed from
the server file independently of the client copy. -/
def funcion_mezcla (x y : Nat) : Nat :=
  (x ^^^ y) + ((x &&& 0xFFFF) ||| (y <<< 16))

/-- `ServidorIoT.funcion_generacion` (server, lines 27-30). -/
def funcion_generacion (x y : Nat) : Nat :=
  (((x >>> 32) ||| (x <<< 32)) &&& 0xFFFFFFFFFFFFFFFF) ^^^ y

/-- `ServidorIoT.funcion_mutacion` (server, lines 32-34). -/
def funcion_mutacion (x y : Nat) : Nat :=
  (x + y) ^^^ ((x <<< 8) ||| (y >>> 8))

/-- The `for i in range(4)` loop body of `ServidorIoT.generar_llaves`
(server, lines 46-58). -/
def generar_llaves_aux (p q : Nat) : Nat → Nat → List Nat
  | _, 0 => []
  | s, n + 1 =>
    funcion_generacion (funcion_mezcla p s) q ::
      generar_llaves_aux p q (funcion_mutacion s q) n

/-- `ServidorIoT.generar_llaves` (server, lines 37-60). -/
def generar_llaves (p q s : Nat) : List Nat :=
  generar_llaves_aux p q s 4

/-- `ServidorIoT.descifrar_mensaje` (server, lines 116-127): rotate left
by 4 bits in a 64-bit word, XOR the key, write 8 big-endian bytes, strip
zero bytes. -/
def descifrar_mensaje (cifrado llave : Nat) : List Nat :=
  let num := ((cifrado <<< 4) ||| (cifrado >>> 60)) &&& 0xFFFFFFFFFFFFFFFF
  let num2 := num ^^^ llave
  stripCeros (numABytes 8 num2)

/-- The header-field extraction `cabecera >> 2` used by every handler
(server, lines 74, 141, 200, 257). -/
def extraer_id (cabecera : Nat) : Nat :=
  cabecera >>> 2

/-- The header-field extraction `cabecera & 0b11` used by every handler
(server, lines 75, 142, 201, 258). -/
def extraer_tipo (cabecera : Nat) : Nat :=
  cabecera &&& 0b11

/-- Outcome of `ServidorIoT.procesar_rm`.  The first two error outcomes
are the source's print-and-return paths; `indexError` models the uncaught
Python `IndexError` raised by `['llaves'][idx_llave]` (server, line 158),
which the surrounding `try` does not catch (it only catches
`FileNotFoundError`). -/
inductive RMResultado where
  | tipoInvalido
  | clienteNoRegistrado
  | indexError
  | descifrado (mensaje : List Nat)
deriving DecidableEq

/-- The fields of an RM frame as read back by `procesar_rm` (server,
lines 135-138). -/
structure RMensaje where
  cabecera : Nat
  idx_llave : Nat
  cifrado : Nat
deriving DecidableEq

/-- `ServidorIoT.procesar_rm` (server, lines 129-187): validate the tag,
look up the client, fetch the indexed key, decode.  No branch assigns to
`self.clientes`, so the state component is returned unchanged on every
path. -/
def procesar_rm (sv : ServidorIoT) (msg : RMensaje) : RMResultado × ServidorIoT :=
  let id_cliente := msg.cabecera >>> 2
  let tipo := msg.cabecera &&& 0b11
  if tipo ≠ TipoMensaje.RM then (RMResultado.tipoInvalido, sv)
  else
    match sv.clientes id_cliente with
    | none => (RMResultado.clienteNoRegistrado, sv)
    | some datos =>
      match datos.llaves[msg.idx_llave]? with
      | none => (RMResultado.indexError, sv)
      | some llave =>
        (RMResultado.descifrado (descifrar_mensaje msg.cifrado llave), sv)

/-- Outcome of `ServidorIoT.procesar_lcm`: either the tag check fails, or
the handler completes with the status string it stores and prints. -/
inductive LCMResultado where
  | tipoInvalido
  | procesado (status : String)
deriving DecidableEq

/-- `ServidorIoT.procesar_lcm` (server, lines 247-286): validate the tag,
delete the client entry if present, and report which of the two statuses
applied. -/
def procesar_lcm (sv : ServidorIoT) (cabecera : Nat) : LCMResultado × ServidorIoT :=
  let id_cliente := cabecera >>> 2
  let tipo := cabecera &&& 0b11
  if tipo ≠ TipoMensaje.LCM then (LCMResultado.tipoInvalido, sv)
  else
    match sv.clientes id_cliente with
    | some _ =>
      (LCMResultado.procesado "Cliente desconectado",
        { clientes := fun i => if i = id_cliente then none else sv.clientes i })
    | none => (LCMResultado.procesado "Cliente no existia", sv)

end ServidorIoT

/-- The spec's `mix` as the spec words it ("computed in 64-bit width with
silent wraparound"): the left shift and the final sum are reduced modulo
2^64.  Stated only to be compared with the source's `funcion_mezcla`,
which applies no reduction. -/
def mezcla64_espec (x y : Nat) : Nat :=
  ((x ^^^ y) + ((x &&& 0xFFFF) ||| ((y <<< 16) % 2^64))) % 2^64

/-- The spec's `mutate` as the spec words it ("64-bit width, wraparound on
the add and shifts").  Stated only to be compared with the source's
`funcion_mutacion`, which applies no reduction. -/
def mutacion64_espec (x y : Nat) : Nat :=
  (((x + y) % 2^64) ^^^ (((x <<< 8) % 2^64) ||| (y >>> 8))) % 2^64

/-! ### Bitwise helper lemmas -/

theorem lor_two_pow_mul_add {b : Nat} (a k : Nat) (hb : b < 2^k) :
    (2^k * a) ||| b = 2^k * a + b := by
  apply Nat.eq_of_testBit_eq
  intro j
  rw [Nat.testBit_or, Nat.testBit_mul_pow_two_add a hb j, Nat.testBit_mul_pow_two]
  by_cases hj : j < k
  · simp [hj, Nat.not_le.mpr hj]
  · have hbj : b.testBit j = false :=
      Nat.testBit_lt_two_pow
        (lt_of_lt_of_le hb (Nat.pow_le_pow_right (by norm_num) (Nat.not_lt.mp hj)))
    simp [hj, hbj, Nat.not_lt.mp hj]

theorem mask64_eq_mod (x : Nat) : x &&& 0xFFFFFFFFFFFFFFFF = x % 2^64 := by
  have h : (0xFFFFFFFFFFFFFFFF : Nat) = 2^64 - 1 := by norm_num
  rw [h, Nat.and_pow_two_sub_one_eq_mod]

theorem lor_mod_two_pow (a b n : Nat) :
    (a ||| b) % 2^n = (a % 2^n) ||| (b % 2^n) := by
  apply Nat.eq_of_testBit_eq
  intro i
  simp only [Nat.testBit_mod_two_pow, Nat.testBit_or]
  cases Decidable.em (i < n) <;> simp [*]

theorem xor_mod_two_pow (a b n : Nat) :
    (a ^^^ b) % 2^n = (a % 2^n) ^^^ (b % 2^n) := by
  apply Nat.eq_of_testBit_eq
  intro i
  simp only [Nat.testBit_mod_two_pow, Nat.testBit_xor]
  cases Decidable.em (i < n) <;> simp [*]

theorem rotDer_eq (n : Nat) (hn : n < 2^64) :
    ((n >>> 4) ||| (n <<< 60)) &&& 0xFFFFFFFFFFFFFFFF = 2^60 * (n % 16) + n / 16 := by
  rw [mask64_eq_mod, Nat.shiftRight_eq_div_pow, Nat.shiftLeft_eq]
  have h1 : n / 2^4 < 2^60 := by omega
  rw [Nat.lor_comm, Nat.mul_comm n (2^60), lor_two_pow_mul_add n 60 h1]
  omega

theorem rotIzq_eq (c : Nat) (hc : c < 2^64) :
    ((c <<< 4) ||| (c >>> 60)) &&& 0xFFFFFFFFFFFFFFFF = 2^4 * (c % 2^60) + c / 2^60 := by
  rw [mask64_eq_mod, Nat.shiftLeft_eq, Nat.shiftRight_eq_div_pow]
  have h1 : c / 2^60 < 2^4 := by omega
  rw [Nat.mul_comm c (2^4), lor_two_pow_mul_add c 4 h1]
  omega

theorem rot4_inverso (v : Nat) (hv : v < 2^64) :
    (((((v >>> 4) ||| (v <<< 60)) &&& 0xFFFFFFFFFFFFFFFF) <<< 4) |||
     ((((v >>> 4) ||| (v <<< 60)) &&& 0xFFFFFFFFFFFFFFFF) >>> 60)) &&&
      0xFFFFFFFFFFFFFFFF = v := by
  rw [rotDer_eq v hv]
  have hc : 2^60 * (v % 16) + v / 16 < 2^64 := by omega
  rw [rotIzq_eq _ hc]
  omega

/-! ### Byte-codec helper lemmas -/

theorem bytesANum_append (l : List Nat) (b : Nat) :
    bytesANum (l ++ [b]) = bytesANum l * 256 + b := by
  simp [bytesANum, List.foldl_append]

theorem bytesANum_lt (l : List Nat) (h : ∀ b ∈ l, b < 256) :
    bytesANum l < 256 ^ l.length := by
  induction l using List.reverseRecOn with
  | nil => simp [bytesANum]
  | append_singleton l b ih =>
    have hb : b < 256 := h b (by simp)
    have hl : bytesANum l < 256 ^ l.length := ih (fun x hx => h x (by simp [hx]))
    rw [bytesANum_append]
    have hp : 256 ^ (l ++ [b]).length = 256 ^ l.length * 256 := by
      simp [List.length_append, pow_succ]
    rw [hp]
    omega

theorem numABytes_bytesANum (l : List Nat) (h : ∀ b ∈ l, b < 256) :
    numABytes l.length (bytesANum l) = l := by
  induction l using List.reverseRecOn with
  | nil => rfl
  | append_singleton l b ih =>
    have hb : b < 256 := h b (by simp)
    have hlen : (l ++ [b]).length = l.length + 1 := by simp
    rw [hlen, bytesANum_append]
    show numABytes l.length ((bytesANum l * 256 + b) / 256) ++
        [(bytesANum l * 256 + b) % 256] = l ++ [b]
    have h1 : (bytesANum l * 256 + b) / 256 = bytesANum l := by omega
    have h2 : (bytesANum l * 256 + b) % 256 = b := by omega
    rw [h1, h2, ih (fun x hx => h x (by simp [hx]))]

theorem dropWhile_replicate_zero (j : Nat) (x : List Nat) :
    (List.replicate j 0 ++ x).dropWhile (fun b => b == 0) =
      x.dropWhile (fun b => b == 0) := by
  induction j with
  | zero => simp
  | succ j ih => simp [List.replicate_succ, List.dropWhile_cons, ih]

theorem dropWhile_zero_of_all_nonzero (l : List Nat) (h : ∀ b ∈ l, b ≠ 0) :
    l.dropWhile (fun b => b == 0) = l := by
  cases l with
  | nil => rfl
  | cons c t => simp [List.dropWhile_cons, h c (by simp)]

theorem stripCeros_pad (m : List Nat) (j : Nat) (hm : m ≠ [])
    (h : ∀ b ∈ m, b ≠ 0) :
    stripCeros (m ++ List.replicate j 0) = m := by
  obtain ⟨c, t, rfl⟩ : ∃ c t, m = c :: t := by
    cases m with
    | nil => exact absurd rfl hm
    | cons c t => exact ⟨c, t, rfl⟩
  unfold stripCeros
  have hc : ¬(c = 0) := h c (by simp)
  rw [List.cons_append, List.dropWhile_cons]
  simp only [beq_iff_eq, hc, if_false]
  have hrev : (c :: (t ++ List.replicate j 0)).reverse =
      List.replicate j 0 ++ (c :: t).reverse := by
    simp [List.reverse_cons, List.reverse_append, List.append_assoc]
  rw [hrev, dropWhile_replicate_zero,
    dropWhile_zero_of_all_nonzero _ (fun b hb => h b (List.mem_reverse.mp hb)),
    List.reverse_reverse]

/-! ### Claim C1 -/

/-- C1: for every plaintext of 1 to 8 ASCII bytes containing no zero byte
and every 64-bit key, decoding (`ServidorIoT.descifrar_mensaje`) the
encoding (`ClienteIoT.cifrar_mensaje`) of the plaintext under that key
returns exactly the original plaintext. -/
theorem cifrar_descifrar_inverso (m : List Nat) (k : Nat)
    (h1 : 1 ≤ m.length) (h8 : m.length ≤ 8)
    (hb : ∀ b ∈ m, 0 < b ∧ b < 128) (hk : k < 2^64) :
    ServidorIoT.descifrar_mensaje (ClienteIoT.cifrar_mensaje m k) k = m := by
  have hdl : (m ++ List.replicate (8 - m.length) 0).length = 8 := by
    simp [List.length_append, List.length_replicate]
    omega
  have htake : (m ++ List.replicate (8 - m.length) 0).take 8 =
      m ++ List.replicate (8 - m.length) 0 :=
    List.take_of_length_le (le_of_eq hdl)
  have hdb : ∀ b ∈ m ++ List.replicate (8 - m.length) 0, b < 256 := by
    intro b hbm
    rcases List.mem_append.mp hbm with h | h
    · exact lt_trans (hb b h).2 (by norm_num)
    · rw [List.eq_of_mem_replicate h]
      norm_num
  have hnum : bytesANum (m ++ List.replicate (8 - m.length) 0) < 2^64 := by
    have hx := bytesANum_lt _ hdb
    rw [hdl] at hx
    have h256 : (256 : Nat)^8 = 2^64 := by norm_num
    omega
  have hnum2 : bytesANum (m ++ List.replicate (8 - m.length) 0) ^^^ k < 2^64 :=
    Nat.xor_lt_two_pow hnum hk
  simp only [ClienteIoT.cifrar_mensaje, ServidorIoT.descifrar_mensaje, htake]
  rw [rot4_inverso _ hnum2, Nat.xor_cancel_right]
  have hnb := numABytes_bytesANum _ hdb
  rw [hdl] at hnb
  rw [hnb]
  exact stripCeros_pad m (8 - m.length)
    (by intro he; rw [he] at h1; simp at h1)
    (fun b hbm => Nat.pos_iff_ne_zero.mp (hb b hbm).1)

/-- Witness for C1 at the plaintext "Hola" and a concrete 64-bit key. -/
theorem cifrar_descifrar_inverso_testigo :
    ServidorIoT.descifrar_mensaje
      (ClienteIoT.cifrar_mensaje [72, 111, 108, 97] 1234567890123456789)
      1234567890123456789 = [72, 111, 108, 97] :=
  cifrar_descifrar_inverso [72, 111, 108, 97] 1234567890123456789
    (by decide) (by decide) (by decide) (by norm_num)

/-! ### Claim C2 (corrected) -/

/-- C2 counterexample: at concrete 64-bit inputs both `funcion_mezcla`
and `funcion_mutacion` (in both source files) return values that do NOT
fit in an unsigned 64-bit word — the source applies no reduction modulo
2^64 to these two functions. -/
theorem funcion_mezcla_mutacion_exceden_64_bits :
    2^64 ≤ ClienteIoT.funcion_mezcla 0 (2^63) ∧
    2^64 ≤ ClienteIoT.funcion_mutacion (2^56) 0 ∧
    2^64 ≤ ServidorIoT.funcion_mezcla 0 (2^63) ∧
    2^64 ≤ ServidorIoT.funcion_mutacion (2^56) 0 := by
  decide

/-- C2 as amended: `funcion_mezcla` and `funcion_mutacion` compute the
claimed formulas over unbounded integers (client and server copies agree
exactly), without any reduction modulo 2^64; reducing their results
modulo 2^64 yields precisely the spec's 64-bit wraparound values
(`mezcla64_espec`, `mutacion64_espec`). -/
theorem funcion_mezcla_mutacion_sin_reduccion (x y : Nat) (hy : y < 2^64) :
    ClienteIoT.funcion_mezcla x y = ServidorIoT.funcion_mezcla x y ∧
    ClienteIoT.funcion_mutacion x y = ServidorIoT.funcion_mutacion x y ∧
    ClienteIoT.funcion_mezcla x y % 2^64 = mezcla64_espec x y ∧
    ClienteIoT.funcion_mutacion x y % 2^64 = mutacion64_espec x y := by
  refine ⟨rfl, rfl, ?_, ?_⟩
  · unfold ClienteIoT.funcion_mezcla mezcla64_espec
    have hand : (x &&& 0xFFFF) % 2^64 = x &&& 0xFFFF := by
      apply Nat.mod_eq_of_lt
      have h1 : x &&& 0xFFFF < 2^16 := by
        have h2 : (0xFFFF : Nat) = 2^16 - 1 := by norm_num
        rw [h2, Nat.and_pow_two_sub_one_eq_mod]
        exact Nat.mod_lt _ (by norm_num)
      omega
    conv_lhs => rw [Nat.add_mod, lor_mod_two_pow, hand]
    conv_rhs => rw [Nat.add_mod, lor_mod_two_pow, hand, Nat.mod_mod]
  · unfold ClienteIoT.funcion_mutacion mutacion64_espec
    have hshr : (y >>> 8) % 2^64 = y >>> 8 := by
      apply Nat.mod_eq_of_lt
      have hle : y >>> 8 ≤ y := by
        rw [Nat.shiftRight_eq_div_pow]
        exact Nat.div_le_self _ _
      omega
    rw [xor_mod_two_pow, lor_mod_two_pow, hshr]
    have hlt : (x + y) % 2^64 ^^^ ((x <<< 8) % 2^64 ||| y >>> 8) < 2^64 := by
      apply Nat.xor_lt_two_pow (Nat.mod_lt _ (by norm_num))
      apply Nat.lt_pow_two_of_testBit
      intro i hi
      rw [Nat.testBit_or]
      have h1 : Nat.testBit ((x <<< 8) % 2^64) i = false := by
        apply Nat.testBit_lt_two_pow
        calc (x <<< 8) % 2^64 < 2^64 := Nat.mod_lt _ (by norm_num)
          _ ≤ 2^i := Nat.pow_le_pow_right (by norm_num) hi
      have h2 : Nat.testBit (y >>> 8) i = false := by
        apply Nat.testBit_lt_two_pow
        have hle : y >>> 8 ≤ y := by
          rw [Nat.shiftRight_eq_div_pow]
          exact Nat.div_le_self _ _
        calc y >>> 8 < 2^64 := by omega
          _ ≤ 2^i := Nat.pow_le_pow_right (by norm_num) hi
      rw [h1, h2]
      rfl
    rw [Nat.mod_eq_of_lt hlt]

/-- Witness for the amended C2 at x = 3, y = 5. -/
theorem funcion_mezcla_mutacion_sin_reduccion_testigo :
    ClienteIoT.funcion_mezcla 3 5 = ServidorIoT.funcion_mezcla 3 5 ∧
    ClienteIoT.funcion_mutacion 3 5 = ServidorIoT.funcion_mutacion 3 5 ∧
    ClienteIoT.funcion_mezcla 3 5 % 2^64 = mezcla64_espec 3 5 ∧
    ClienteIoT.funcion_mutacion 3 5 % 2^64 = mutacion64_espec 3 5 :=
  funcion_mezcla_mutacion_sin_reduccion 3 5 (by norm_num)

/-! ### Claim C3 (corrected) -/

/-- C3 counterexample: starting from a device state whose key index is 2,
creating a FirstContact or KeyUpdate message leaves the key index at 2 —
it is not reset to 0. -/
theorem crear_fcm_kum_no_reinicia_indice :
    (ClienteIoT.crear_fcm ⟨1, [], 2, 0, 0, 0⟩ 7 11 3).llave_actual = 2 ∧
    (ClienteIoT.crear_kum ⟨1, [], 2, 0, 0, 0⟩ 7 11 3).llave_actual = 2 := by
  decide

/-- C3 as amended: installing a new key schedule via `crear_fcm` or
`crear_kum` leaves the device's key index `llave_actual` exactly as it
was beforehand (neither method ever assigns to it). -/
theorem crear_fcm_kum_preserva_indice (st : ClienteIoT) (p q s : Nat) :
    (ClienteIoT.crear_fcm st p q s).llave_actual = st.llave_actual ∧
    (ClienteIoT.crear_kum st p q s).llave_actual = st.llave_actual :=
  ⟨rfl, rfl⟩

/-! ### Claim C4 -/

theorem generar_llaves_aux_igual (n p q s : Nat) :
    ClienteIoT.generar_llaves_aux p q s n = ServidorIoT.generar_llaves_aux p q s n := by
  induction n generalizing s with
  | zero => rfl
  | succ n ih =>
    simp [ClienteIoT.generar_llaves_aux, ServidorIoT.generar_llaves_aux,
      ClienteIoT.funcion_mezcla, ServidorIoT.funcion_mezcla,
      ClienteIoT.funcion_generacion, ServidorIoT.funcion_generacion,
      ClienteIoT.funcion_mutacion, ServidorIoT.funcion_mutacion, ih]

/-- C4: the client's key derivation and the server's key derivation agree
on every parameter triple (P, Q, S), always produce exactly 4 keys, and
the sequence is precisely the iteration `p0 = mezcla(P, s);
key = generacion(p0, Q); s = mutacion(s, Q)` starting from `s = S`.  Both
sides are pure functions of (P, Q, S), so the derivation is
deterministic. -/
theorem generar_llaves_cliente_igual_servidor (st : ClienteIoT) :
    (ClienteIoT.generar_llaves st).llaves = ServidorIoT.generar_llaves st.p st.q st.s ∧
    (ServidorIoT.generar_llaves st.p st.q st.s).length = 4 ∧
    ServidorIoT.generar_llaves st.p st.q st.s =
      [ServidorIoT.funcion_generacion (ServidorIoT.funcion_mezcla st.p st.s) st.q,
       ServidorIoT.funcion_generacion
         (ServidorIoT.funcion_mezcla st.p
           (ServidorIoT.funcion_mutacion st.s st.q)) st.q,
       ServidorIoT.funcion_generacion
         (ServidorIoT.funcion_mezcla st.p
           (ServidorIoT.funcion_mutacion
             (ServidorIoT.funcion_mutacion st.s st.q) st.q)) st.q,
       ServidorIoT.funcion_generacion
         (ServidorIoT.funcion_mezcla st.p
           (ServidorIoT.funcion_mutacion
             (ServidorIoT.funcion_mutacion
               (ServidorIoT.funcion_mutacion st.s st.q) st.q) st.q)) st.q] :=
  ⟨generar_llaves_aux_igual 4 st.p st.q st.s, rfl, rfl⟩

/-! ### Claim C8 -/

/-- C8: for every device identity in [0, 63] and tag in [0, 3], composing
the header byte (`componer_cabecera`) and then extracting its fields
(`extraer_id`, `extraer_tipo`) recovers exactly the original identity and
tag. -/
theorem cabecera_ida_y_vuelta (i tipo : Nat) (hi : i ≤ 63) (ht : tipo ≤ 3) :
    ServidorIoT.extraer_id (ClienteIoT.componer_cabecera i tipo) = i ∧
    ServidorIoT.extraer_tipo (ClienteIoT.componer_cabecera i tipo) = tipo := by
  unfold ServidorIoT.extraer_id ServidorIoT.extraer_tipo ClienteIoT.componer_cabecera
  have h4 : tipo < 2^2 := by omega
  have hco : (i <<< 2) ||| tipo = 2^2 * i + tipo := by
    rw [Nat.shiftLeft_eq, Nat.mul_comm]
    exact lor_two_pow_mul_add i 2 h4
  refine ⟨?_, ?_⟩
  · rw [hco, Nat.shiftRight_eq_div_pow]
    omega
  · rw [hco]
    have h3 : (0b11 : Nat) = 2^2 - 1 := by norm_num
    rw [h3, Nat.and_pow_two_sub_one_eq_mod]
    omega

/-- Witness for C8 at identity 5 and tag 2 (KeyUpdate). -/
theorem cabecera_ida_y_vuelta_testigo :
    ServidorIoT.extraer_id (ClienteIoT.componer_cabecera 5 2) = 5 ∧
    ServidorIoT.extraer_tipo (ClienteIoT.componer_cabecera 5 2) = 2 :=
  cabecera_ida_y_vuelta 5 2 (by norm_num) (by norm_num)

/-! ### Claim C9 -/

theorem funcion_generacion_lt (x y : Nat) (hy : y < 2^64) :
    ServidorIoT.funcion_generacion x y < 2^64 := by
  unfold ServidorIoT.funcion_generacion
  rw [mask64_eq_mod]
  exact Nat.xor_lt_two_pow (Nat.mod_lt _ (by norm_num)) hy

theorem generar_llaves_aux_lt (p q : Nat) (hq : q < 2^64) :
    ∀ n s k, k ∈ ServidorIoT.generar_llaves_aux p q s n → k < 2^64 := by
  intro n
  induction n with
  | zero =>
    intro s k hk
    simp [ServidorIoT.generar_llaves_aux] at hk
  | succ n ih =>
    intro s k hk
    simp only [ServidorIoT.generar_llaves_aux] at hk
    rcases List.mem_cons.mp hk with h | h
    · rw [h]
      exact funcion_generacion_lt _ _ hq
    · exact ih _ _ h

/-- C9: every key appended to a key schedule (client or hub) is strictly
less than 2^64, because `funcion_generacion` masks its rotation to 64
bits before the final XOR with Q — the hypothesis `q < 2^64` holds for
every Q the source can feed in (a 16-bit pseudoprime on the client, a
`struct.unpack` 64-bit field on the hub). -/
theorem llaves_derivadas_menores_2_64 :
    (∀ p q s, q < 2^64 → ∀ k ∈ ServidorIoT.generar_llaves p q s, k < 2^64) ∧
    (∀ st : ClienteIoT, st.q < 2^64 →
      ∀ k ∈ (ClienteIoT.generar_llaves st).llaves, k < 2^64) := by
  constructor
  · intro p q s hq k hk
    exact generar_llaves_aux_lt p q hq 4 s k hk
  · intro st hq k hk
    have he : (ClienteIoT.generar_llaves st).llaves =
        ServidorIoT.generar_llaves_aux st.p st.q st.s 4 :=
      generar_llaves_aux_igual 4 st.p st.q st.s
    rw [he] at hk
    exact generar_llaves_aux_lt st.p st.q hq 4 st.s k hk

/-- Witness for C9 at P = 104729, Q = 65537, S = 0 (first derived key on
each side). -/
theorem llaves_derivadas_menores_2_64_testigo :
    (ServidorIoT.generar_llaves 104729 65537 0).getD 0 0 < 2^64 ∧
    ((ClienteIoT.generar_llaves ⟨5, [], 0, 104729, 65537, 0⟩).llaves).getD 0 0 < 2^64 :=
  ⟨llaves_derivadas_menores_2_64.1 104729 65537 0 (by norm_num) _ (by decide),
   llaves_derivadas_menores_2_64.2 ⟨5, [], 0, 104729, 65537, 0⟩ (by norm_num) _ (by decide)⟩

/-! ### Claim C10 -/

/-- C10: processing a Regular message never modifies the hub's session
table: on every path (wrong tag, unknown device, index out of range,
successful decode) `procesar_rm` returns the state unchanged. -/
theorem procesar_rm_preserva_tabla (sv : ServidorIoT) (msg : ServidorIoT.RMensaje) :
    (ServidorIoT.procesar_rm sv msg).2 = sv := by
  simp only [ServidorIoT.procesar_rm]
  split
  · rfl
  · split
    · rfl
    · split
      · rfl
      · rfl

/-! ### Claim C6 -/

/-- C6: a Regular message for an identity with no entry in the session
table fails with the unknown-device outcome, returns no plaintext, and
leaves the state exactly as it was. -/
theorem procesar_rm_cliente_desconocido (sv : ServidorIoT) (msg : ServidorIoT.RMensaje)
    (htag : msg.cabecera &&& 0b11 = TipoMensaje.RM)
    (hno : sv.clientes (msg.cabecera >>> 2) = none) :
    ServidorIoT.procesar_rm sv msg = (ServidorIoT.RMResultado.clienteNoRegistrado, sv) := by
  simp [ServidorIoT.procesar_rm, TipoMensaje.RM, htag, hno]

/-- Witness for C6: empty table, RM frame with header 21 (identity 5,
tag 1). -/
theorem procesar_rm_cliente_desconocido_testigo :
    ServidorIoT.procesar_rm ⟨fun _ => none⟩ ⟨21, 0, 0⟩ =
      (ServidorIoT.RMResultado.clienteNoRegistrado, ⟨fun _ => none⟩) :=
  procesar_rm_cliente_desconocido ⟨fun _ => none⟩ ⟨21, 0, 0⟩ (by decide) rfl

/-! ### Claim C5 (corrected) -/

/-- C5 counterexample: a registered device with a 4-key schedule and an
RM frame carrying key index 4 makes `procesar_rm` take the
`indexError` path — the uncaught Python `IndexError`, i.e. a crash, not
a reported-and-handled outcome. -/
theorem procesar_rm_indice_invalido_crash :
    (ServidorIoT.procesar_rm
      ⟨fun i => if i = 5 then some ⟨104729, 65537, 0, [10, 20, 30, 40]⟩ else none⟩
      ⟨21, 4, 0⟩).1 = ServidorIoT.RMResultado.indexError := by
  decide

/-- C5 as amended: when the key-index field is ≥ the stored schedule
length for a registered device, `procesar_rm` ends in the uncaught
`IndexError` (modelled as `RMResultado.indexError`, a crash rather than a
handled outcome) and the session table is left unchanged. -/
theorem procesar_rm_indice_fuera_de_rango (sv : ServidorIoT) (msg : ServidorIoT.RMensaje)
    (datos : DatosCliente)
    (htag : msg.cabecera &&& 0b11 = TipoMensaje.RM)
    (hcli : sv.clientes (msg.cabecera >>> 2) = some datos)
    (hidx : datos.llaves.length ≤ msg.idx_llave) :
    ServidorIoT.procesar_rm sv msg = (ServidorIoT.RMResultado.indexError, sv) := by
  have hget : datos.llaves[msg.idx_llave]? = none := List.getElem?_eq_none hidx
  simp [ServidorIoT.procesar_rm, TipoMensaje.RM, htag, hcli, hget]

/-- Witness for the amended C5 at the same concrete inputs as the
counterexample. -/
theorem procesar_rm_indice_fuera_de_rango_testigo :
    ServidorIoT.procesar_rm
      ⟨fun i => if i = 5 then some ⟨104729, 65537, 0, [10, 20, 30, 40]⟩ else none⟩
      ⟨21, 4, 0⟩ =
    (ServidorIoT.RMResultado.indexError,
     ⟨fun i => if i = 5 then some ⟨104729, 65537, 0, [10, 20, 30, 40]⟩ else none⟩) :=
  procesar_rm_indice_fuera_de_rango _ _ ⟨104729, 65537, 0, [10, 20, 30, 40]⟩
    (by decide) (by decide) (by decide)

/-! ### Claim C7 -/

/-- C7: processing a LastContact twice for the same (initially connected)
identity reports "Cliente desconectado" then "Cliente no existia"; the
second call is not an error, and after either call the table has no
entry for that identity. -/
theorem procesar_lcm_idempotente (sv : ServidorIoT) (cab : Nat) (d : DatosCliente)
    (htag : cab &&& 0b11 = TipoMensaje.LCM)
    (hcon : sv.clientes (cab >>> 2) = some d) :
    (ServidorIoT.procesar_lcm sv cab).1 =
      ServidorIoT.LCMResultado.procesado "Cliente desconectado" ∧
    (ServidorIoT.procesar_lcm sv cab).2.clientes (cab >>> 2) = none ∧
    (ServidorIoT.procesar_lcm (ServidorIoT.procesar_lcm sv cab).2 cab).1 =
      ServidorIoT.LCMResultado.procesado "Cliente no existia" ∧
    (ServidorIoT.procesar_lcm (ServidorIoT.procesar_lcm sv cab).2 cab).2.clientes
      (cab >>> 2) = none := by
  have h1 : ServidorIoT.procesar_lcm sv cab =
      (ServidorIoT.LCMResultado.procesado "Cliente desconectado",
       ⟨fun i => if i = cab >>> 2 then none else sv.clientes i⟩) := by
    simp [ServidorIoT.procesar_lcm, TipoMensaje.LCM, htag, hcon]
  have h2 : (ServidorIoT.mk (fun i => if i = cab >>> 2 then none else sv.clientes i)).clientes
      (cab >>> 2) = none := by
    simp
  have h3 : ServidorIoT.procesar_lcm
      ⟨fun i => if i = cab >>> 2 then none else sv.clientes i⟩ cab =
      (ServidorIoT.LCMResultado.procesado "Cliente no existia",
       ⟨fun i => if i = cab >>> 2 then none else sv.clientes i⟩) := by
    simp [ServidorIoT.procesar_lcm, TipoMensaje.LCM, htag, h2]
  rw [h1]
  exact ⟨rfl, h2, by rw [h3], by rw [h3]; exact h2⟩

/-- Witness for C7: identity 5 registered, LCM frame with header 23
(identity 5, tag 3). -/
theorem procesar_lcm_idempotente_testigo :
    (ServidorIoT.procesar_lcm
      ⟨fun i => if i = 5 then some ⟨1, 2, 3, [4]⟩ else none⟩ 23).1 =
      ServidorIoT.LCMResultado.procesado "Cliente desconectado" ∧
    (ServidorIoT.procesar_lcm
      ⟨fun i => if i = 5 then some ⟨1, 2, 3, [4]⟩ else none⟩ 23).2.clientes (23 >>> 2) = none ∧
    (ServidorIoT.procesar_lcm (ServidorIoT.procesar_lcm
      ⟨fun i => if i = 5 then some ⟨1, 2, 3, [4]⟩ else none⟩ 23).2 23).1 =
      ServidorIoT.LCMResultado.procesado "Cliente no existia" ∧
    (ServidorIoT.procesar_lcm (ServidorIoT.procesar_lcm
      ⟨fun i => if i = 5 then some ⟨1, 2, 3, [4]⟩ else none⟩ 23).2 23).2.clientes
      (23 >>> 2) = none :=
  procesar_lcm_idempotente _ 23 ⟨1, 2, 3, [4]⟩ (by decide) (by decide)
